import Mathlib

/-!
# Bookstore API (week11-assignment) and reservation listing (week5-assignment1)

A shallow embedding of the HTTP handlers of `week11-assignment/main.go` and
`week5-assignment1/main.go`.  A handler is a function of the database handle and of the
request context; it yields the response written by `c.JSON` together with the statements it
sent to the database.  The database, the `database/sql` row cursor and the request decoder
are inputs of the handlers: every theorem quantifies over whatever they may answer.  For the
featured-books listing the relational engine is described as well: the text of the
statement is read into its clauses, which are evaluated on the rows of the `books` table.
-/

/-! ## Go values shared by both programs -/

/-- A finite `float64`, modelled by the rational number it denotes. -/
abbrev Float64 := Rat

/-- A `time.Time` instant, counted in nanoseconds from the zero time. -/
structure Time where
  ns : Int
deriving DecidableEq, Repr

/-- The zero value of `time.Time`. -/
def Time.zero : Time := ⟨0⟩

/-- A Go slice value: either `nil` or a sequence of elements (possibly of length zero). -/
inductive Slice (α : Type) where
  | nil : Slice α
  | items (xs : List α) : Slice α
deriving Repr

/-- Go `append(s, x)`: appending to `nil` allocates a slice of one element. -/
def Slice.append {α : Type} : Slice α → α → Slice α
  | Slice.nil, x => Slice.items [x]
  | Slice.items xs, x => Slice.items (xs ++ [x])

/-- Go `s == nil`. -/
def Slice.isNil {α : Type} : Slice α → Bool
  | Slice.nil => true
  | Slice.items _ => false

/-- Elements visited by `for _, x := range s`. -/
def Slice.toList {α : Type} : Slice α → List α
  | Slice.nil => []
  | Slice.items xs => xs

/-- JSON documents as `encoding/json` writes them (timestamps are kept as instants instead
of their RFC 3339 text). -/
inductive Json where
  | null : Json
  | bool (b : Bool) : Json
  | int (n : Int) : Json
  | float (x : Float64) : Json
  | str (s : String) : Json
  | time (t : Time) : Json
  | arr (xs : List Json) : Json
  | obj (kvs : List (String × Json)) : Json

/-- Encoding of a slice: a `nil` slice is written as `null`, any other slice as an array. -/
def Slice.toJson {α : Type} (enc : α → Json) : Slice α → Json
  | Slice.nil => Json.null
  | Slice.items xs => Json.arr (xs.map enc)

/-- The pair of status code and body handed to `c.JSON`. -/
structure Response where
  status : Nat
  body : Json

/-- The body `gin.H{"error": msg}`. -/
def errorBody (msg : String) : Json := Json.obj [("error", Json.str msg)]

/-- The body `gin.H{"message": msg}`. -/
def messageBody (msg : String) : Json := Json.obj [("message", Json.str msg)]

def StatusOK : Nat := 200
def StatusCreated : Nat := 201
def StatusBadRequest : Nat := 400
def StatusNotFound : Nat := 404
def StatusInternalServerError : Nat := 500

/-! ## `database/sql` as the handlers use it -/

/-- Go `error` values met by the handlers: the sentinel `sql.ErrNoRows`, or any other error
with its message. -/
inductive GoError where
  | ErrNoRows : GoError
  | other (msg : String) : GoError
deriving DecidableEq, Repr

/-- Method `err.Error()`. -/
def GoError.Error : GoError → String
  | GoError.ErrNoRows => "sql: no rows in result set"
  | GoError.other msg => msg

/-- One column value of a result row, described by what `convertAssign` makes of it for each
destination type the handlers scan into: the converted value, or the message of the error
that `Rows.Scan` returns for that column.  `isNull` tells whether the driver value is SQL
NULL, which a pointer destination receives as `nil`. -/
structure SqlValue where
  isNull : Bool
  toInt : Except String Int
  toText : Except String String
  toFloat64 : Except String Float64
  toBool : Except String Bool
  toTime : Except String Time

/-- A destination argument of `Scan`, writing into a piece of state `σ` (a `Book`, or the
local variables of a handler). -/
inductive Dest (σ : Type) where
  | int (set : σ → Int → σ) : Dest σ
  | string (set : σ → String → σ) : Dest σ
  | float64 (set : σ → Float64 → σ) : Dest σ
  | bool (set : σ → Bool → σ) : Dest σ
  | time (set : σ → Time → σ) : Dest σ
  | ptrFloat64 (set : σ → Option Float64 → σ) : Dest σ

/-- Store the outcome of a conversion: the destination is written only when the conversion
succeeded. -/
def assignResult {σ α : Type} (set : σ → α → σ) (s : σ) : Except String α → σ × Option String
  | Except.ok a => (set s a, none)
  | Except.error e => (s, some e)

/-- Function `convertAssign` for one column.  A `**float64` destination is set to `nil` for
NULL and otherwise to a fresh `float64` which then receives the converted value (and stays
0 when the conversion fails). -/
def convertAssign {σ : Type} (d : Dest σ) (v : SqlValue) (s : σ) : σ × Option String :=
  match d with
  | Dest.int set => assignResult set s v.toInt
  | Dest.string set => assignResult set s v.toText
  | Dest.float64 set => assignResult set s v.toFloat64
  | Dest.bool set => assignResult set s v.toBool
  | Dest.time set => assignResult set s v.toTime
  | Dest.ptrFloat64 set =>
    if v.isNull then (set s none, none)
    else assignResult (fun s x => set s (some x)) (set s (some 0)) v.toFloat64

/-- The column loop of `Rows.Scan`: columns are converted from left to right and the first
failure stops the loop, leaving the destinations already written as they are. -/
def scanColumns {σ : Type} : List (Dest σ) → List SqlValue → σ → σ × Option String
  | d :: ds, v :: vs, s =>
    match convertAssign d v s with
    | (s1, none) => scanColumns ds vs s1
    | (s1, some e) => (s1, some e)
  | _, _, s => (s, none)

/-- Message of the error `Rows.Scan` returns when the number of destinations differs from
the number of columns. -/
def arityMessage (columns dests : Nat) : String :=
  "sql: expected " ++ toString columns ++ " destination arguments in Scan, not " ++ toString dests

/-- Method `Rows.Scan` on the current row `cols`. -/
def rowsScan {σ : Type} (dest : List (Dest σ)) (cols : List SqlValue) (s : σ) :
    σ × Option GoError :=
  if dest.length ≠ cols.length then
    (s, some (GoError.other (arityMessage cols.length dest.length)))
  else
    match scanColumns dest cols s with
    | (s1, none) => (s1, none)
    | (s1, some e) => (s1, some (GoError.other e))

/-- A result set `*sql.Rows`: the rows `Next` delivers, the error `Err()` reports once
`Next` has returned false, and the error `Close()` returns. -/
structure Rows where
  rows : List (List SqlValue)
  err : Option String
  closeErr : Option String

/-- The value `*sql.Row` returned by `QueryRow`: the error of the query, or its result set. -/
abbrev Row := Except String Rows

/-- Method `Row.Scan`: the deferred query error, `sql.ErrNoRows` for a result set without
rows, else the scan of the first row followed by `Close`. -/
def Row.Scan {σ : Type} (r : Row) (dest : List (Dest σ)) (s : σ) : σ × Option GoError :=
  match r with
  | Except.error e => (s, some (GoError.other e))
  | Except.ok rs =>
    match rs.rows with
    | [] =>
      match rs.err with
      | some e => (s, some (GoError.other e))
      | none => (s, some GoError.ErrNoRows)
    | cols :: _ =>
      match rowsScan dest cols s with
      | (s1, some e) => (s1, some e)
      | (s1, none) => (s1, rs.closeErr.map GoError.other)

/-- An argument bound to a placeholder of a statement. -/
inductive SqlArg where
  | text (s : String) : SqlArg
  | int (n : Int) : SqlArg
  | float (x : Float64) : SqlArg
deriving DecidableEq, Repr

/-- A statement sent to the database: its text and its arguments. -/
structure Stmt where
  sql : String
  args : List SqlArg
deriving DecidableEq, Repr

/-- The value `sql.Result` of `db.Exec`, reduced to `RowsAffected()`. -/
structure Result where
  RowsAffected : Except String Int

/-- The database handle `db`: what `db.Query` (also behind `db.QueryRow`) and `db.Exec`
answer to a statement. -/
structure DB where
  Query : String → List SqlArg → Except String Rows
  Exec : String → List SqlArg → Except String Result

/-- Method `db.QueryRow`. -/
def DB.QueryRow (db : DB) (sql : String) (args : List SqlArg) : Row := db.Query sql args

/-! ## week11-assignment: the bookstore handlers -/

namespace Week11

/-- The struct `Book`; the pointer fields `OriginalPrice` and `Pages` are optional. -/
structure Book where
  ID : Int
  Title : String
  Author : String
  ISBN : String
  Year : Int
  Price : Float64
  Category : String
  OriginalPrice : Option Float64
  Discount : Int
  CoverImage : String
  Rating : Float64
  ReviewsCount : Int
  IsNew : Bool
  Pages : Option Int
  Language : String
  Publisher : String
  Description : String
  CreatedAt : Time
  UpdatedAt : Time
deriving DecidableEq, Repr

/-- The zero value of `Book`, as declared by `var book Book`. -/
def Book.zero : Book where
  ID := 0
  Title := ""
  Author := ""
  ISBN := ""
  Year := 0
  Price := 0
  Category := ""
  OriginalPrice := none
  Discount := 0
  CoverImage := ""
  Rating := 0
  ReviewsCount := 0
  IsNew := false
  Pages := none
  Language := ""
  Publisher := ""
  Description := ""
  CreatedAt := Time.zero
  UpdatedAt := Time.zero

/-- JSON encoding of a `Book` following its struct tags: fields in declaration order, the
two `omitempty` pointer fields left out when `nil`. -/
def Book.toJson (b : Book) : Json :=
  Json.obj
    ([("id", Json.int b.ID), ("title", Json.str b.Title), ("author", Json.str b.Author),
      ("isbn", Json.str b.ISBN), ("year", Json.int b.Year), ("price", Json.float b.Price),
      ("category", Json.str b.Category)]
      ++ (match b.OriginalPrice with
          | some p => [("original_price", Json.float p)]
          | none => [])
      ++ [("discount", Json.int b.Discount), ("cover_image", Json.str b.CoverImage),
          ("rating", Json.float b.Rating), ("reviews_count", Json.int b.ReviewsCount),
          ("is_new", Json.bool b.IsNew)]
      ++ (match b.Pages with
          | some p => [("pages", Json.int p)]
          | none => [])
      ++ [("language", Json.str b.Language), ("publisher", Json.str b.Publisher),
          ("description", Json.str b.Description), ("created_at", Json.time b.CreatedAt),
          ("updated_at", Json.time b.UpdatedAt)])

/-- The request as a handler reads it: path parameters, query parameters, and the outcome
of `c.ShouldBindJSON` on the body (the decoded `Book`, or the decoder's error message). -/
structure Context where
  params : List (String × String)
  query : List (String × String)
  bindJSON : Except String Book

/-- Method `c.Param`: the value of a path parameter, empty when absent. -/
def Context.Param (c : Context) (key : String) : String := (c.params.lookup key).getD ""

/-- Method `c.Query`: the value of a query parameter, empty when absent. -/
def Context.Query (c : Context) (key : String) : String := (c.query.lookup key).getD ""

/-- What a handler does: the response it writes and the statements it sent, in order. -/
structure Outcome where
  response : Response
  issued : List Stmt

/-- Signature shared by the handlers; `db` is the package variable. -/
abbrev Handler := DB → Context → Outcome

/-! ### Destinations -/

def destID : Dest Book := Dest.int (fun b v => { b with ID := v })
def destTitle : Dest Book := Dest.string (fun b v => { b with Title := v })
def destAuthor : Dest Book := Dest.string (fun b v => { b with Author := v })
def destISBN : Dest Book := Dest.string (fun b v => { b with ISBN := v })
def destYear : Dest Book := Dest.int (fun b v => { b with Year := v })
def destPrice : Dest Book := Dest.float64 (fun b v => { b with Price := v })
def destCategory : Dest Book := Dest.string (fun b v => { b with Category := v })
def destOriginalPrice : Dest Book := Dest.ptrFloat64 (fun b v => { b with OriginalPrice := v })
def destDiscount : Dest Book := Dest.int (fun b v => { b with Discount := v })
def destRating : Dest Book := Dest.float64 (fun b v => { b with Rating := v })
def destReviewsCount : Dest Book := Dest.int (fun b v => { b with ReviewsCount := v })
def destIsNew : Dest Book := Dest.bool (fun b v => { b with IsNew := v })
def destCreatedAt : Dest Book := Dest.time (fun b v => { b with CreatedAt := v })
def destUpdatedAt : Dest Book := Dest.time (fun b v => { b with UpdatedAt := v })

/-- Body of the loops `for rows.Next() { var b Book; rows.Scan(...); books = append(books, b) }`:
the scan error is not looked at and the book is appended in every case. -/
def collectBooks (dest : List (Dest Book)) (rows : List (List SqlValue)) : Slice Book :=
  rows.foldl (fun books cols => books.append (rowsScan dest cols Book.zero).1) Slice.nil

/-- The statement `if books == nil { books = []Book{} }`. -/
def orEmpty {α : Type} (s : Slice α) : Slice α :=
  if s.isNil then Slice.items [] else s

/-! ### getAllBooks -/

def getAllBooksSQL : String :=
  "SELECT id, title, author, isbn, year, price, created_at, updated_at FROM books"

def getAllBooksDest : List (Dest Book) :=
  [destID, destTitle, destAuthor, destISBN, destYear, destPrice, destCreatedAt, destUpdatedAt]

def getAllBooks : Handler := fun db _ =>
  let stmt : Stmt := ⟨getAllBooksSQL, []⟩
  match db.Query stmt.sql stmt.args with
  | Except.error err => ⟨⟨StatusInternalServerError, errorBody err⟩, [stmt]⟩
  | Except.ok rows =>
    let books := collectBooks getAllBooksDest rows.rows
    ⟨⟨StatusOK, (orEmpty books).toJson Book.toJson⟩, [stmt]⟩

/-! ### getBook -/

def getBookSQL : String := "SELECT id, title, author FROM books WHERE id = $1"

def getBookDest : List (Dest Book) := [destID, destTitle, destAuthor]

def getBook : Handler := fun db c =>
  let id := c.Param "id"
  let stmt : Stmt := ⟨getBookSQL, [SqlArg.text id]⟩
  match (db.QueryRow stmt.sql stmt.args).Scan getBookDest Book.zero with
  | (_, some GoError.ErrNoRows) => ⟨⟨StatusNotFound, errorBody "book not found"⟩, [stmt]⟩
  | (_, some err) => ⟨⟨StatusInternalServerError, errorBody err.Error⟩, [stmt]⟩
  | (book, none) => ⟨⟨StatusOK, book.toJson⟩, [stmt]⟩

/-! ### createBook -/

def createBookSQL : String :=
  "INSERT INTO books (title, author, isbn, year, price)\n         VALUES ($1, $2, $3, $4, $5)\n         RETURNING id, created_at, updated_at"

/-- The locals `id`, `createdAt`, `updatedAt` of `createBook`. -/
structure CreateLocals where
  id : Int
  createdAt : Time
  updatedAt : Time

/-- The destinations `&id, &createdAt, &updatedAt`. -/
def createBookDest : List (Dest CreateLocals) :=
  [Dest.int (fun l v => { l with id := v }), Dest.time (fun l v => { l with createdAt := v }),
   Dest.time (fun l v => { l with updatedAt := v })]

def createBook : Handler := fun db c =>
  match c.bindJSON with
  | Except.error err => ⟨⟨StatusBadRequest, errorBody err⟩, []⟩
  | Except.ok newBook =>
    let stmt : Stmt := ⟨createBookSQL,
      [SqlArg.text newBook.Title, SqlArg.text newBook.Author, SqlArg.text newBook.ISBN,
       SqlArg.int newBook.Year, SqlArg.float newBook.Price]⟩
    match (db.QueryRow stmt.sql stmt.args).Scan createBookDest ⟨0, Time.zero, Time.zero⟩ with
    | (_, some err) => ⟨⟨StatusInternalServerError, errorBody err.Error⟩, [stmt]⟩
    | (l, none) =>
      let newBook := { newBook with ID := l.id }
      let newBook := { newBook with CreatedAt := l.createdAt }
      let newBook := { newBook with UpdatedAt := l.updatedAt }
      ⟨⟨StatusCreated, newBook.toJson⟩, [stmt]⟩

/-! ### updateBook -/

def updateBookSQL : String :=
  "UPDATE books\n         SET title = $1, author = $2, isbn = $3, year = $4, price = $5\n         WHERE id = $6\n         RETURNING id , updated_at"

/-- The single destination `&updatedAt`. -/
def updateBookDest : List (Dest Time) := [Dest.time (fun _ v => v)]

def updateBook : Handler := fun db c =>
  let ID : Int := 0
  let id := c.Param "id"
  match c.bindJSON with
  | Except.error err => ⟨⟨StatusBadRequest, errorBody err⟩, []⟩
  | Except.ok updateBook =>
    let stmt : Stmt := ⟨updateBookSQL,
      [SqlArg.text updateBook.Title, SqlArg.text updateBook.Author, SqlArg.text updateBook.ISBN,
       SqlArg.int updateBook.Year, SqlArg.float updateBook.Price, SqlArg.text id]⟩
    match (db.QueryRow stmt.sql stmt.args).Scan updateBookDest Time.zero with
    | (_, some GoError.ErrNoRows) => ⟨⟨StatusNotFound, errorBody "book not found"⟩, [stmt]⟩
    | (_, some err) => ⟨⟨StatusInternalServerError, errorBody err.Error⟩, [stmt]⟩
    | (updatedAt, none) =>
      let updateBook := { updateBook with ID := ID }
      let updateBook := { updateBook with UpdatedAt := updatedAt }
      ⟨⟨StatusOK, updateBook.toJson⟩, [stmt]⟩

/-! ### deleteBook -/

def deleteBookSQL : String := "DELETE FROM books WHERE id = $1"

def deleteBook : Handler := fun db c =>
  let id := c.Param "id"
  let stmt : Stmt := ⟨deleteBookSQL, [SqlArg.text id]⟩
  match db.Exec stmt.sql stmt.args with
  | Except.error err => ⟨⟨StatusInternalServerError, errorBody err⟩, [stmt]⟩
  | Except.ok result =>
    match result.RowsAffected with
    | Except.error err => ⟨⟨StatusInternalServerError, errorBody err⟩, [stmt]⟩
    | Except.ok rowsAffected =>
      if rowsAffected = 0 then
        ⟨⟨StatusNotFound, errorBody "book not found"⟩, [stmt]⟩
      else
        ⟨⟨StatusOK, messageBody "book deleted successfully"⟩, [stmt]⟩

/-! ### getAllCategories -/

def getAllCategoriesSQL : String :=
  "SELECT DISTINCT category FROM books WHERE category IS NOT NULL AND category <> '' ORDER BY category"

/-- The single destination `&cat`. -/
def categoryDest : List (Dest String) := [Dest.string (fun _ v => v)]

/-- The loop of `getAllCategories`: a category is appended only when its scan succeeded. -/
def collectCategories (rows : List (List SqlValue)) : Slice String :=
  rows.foldl
    (fun categories cols =>
      match rowsScan categoryDest cols "" with
      | (cat, none) => categories.append cat
      | (_, some _) => categories)
    Slice.nil

def getAllCategories : Handler := fun db _ =>
  let stmt : Stmt := ⟨getAllCategoriesSQL, []⟩
  match db.Query stmt.sql stmt.args with
  | Except.error err => ⟨⟨StatusInternalServerError, errorBody err⟩, [stmt]⟩
  | Except.ok rows =>
    let categories := collectCategories rows.rows
    ⟨⟨StatusOK, (orEmpty categories).toJson Json.str⟩, [stmt]⟩

/-! ### searchBooks -/

def searchBooksSQL : String :=
  "\n\t\tSELECT id, title, author, isbn, year, price, category, rating, reviews_count, is_new, created_at, updated_at\n\t\tFROM books\n\t\tWHERE title ILIKE $1 OR author ILIKE $1 OR description ILIKE $1\n\t"

def searchBooksDest : List (Dest Book) :=
  [destID, destTitle, destAuthor, destISBN, destYear, destPrice, destCategory, destRating,
   destReviewsCount, destIsNew, destCreatedAt, destUpdatedAt]

def searchBooks : Handler := fun db c =>
  let q := c.Query "q"
  if q = "" then
    ⟨⟨StatusBadRequest, errorBody "missing search query"⟩, []⟩
  else
    let stmt : Stmt := ⟨searchBooksSQL, [SqlArg.text ("%" ++ q ++ "%")]⟩
    match db.Query stmt.sql stmt.args with
    | Except.error err => ⟨⟨StatusInternalServerError, errorBody err⟩, [stmt]⟩
    | Except.ok rows =>
      let books := collectBooks searchBooksDest rows.rows
      ⟨⟨StatusOK, (orEmpty books).toJson Book.toJson⟩, [stmt]⟩

/-! ### getFeaturedBooks -/

def getFeaturedBooksSQL : String :=
  "\n\t\tSELECT id, title, author, price, rating, reviews_count, category, created_at, updated_at\n\t\tFROM books\n\t\tWHERE rating >= 4.5 OR reviews_count >= 100\n\t\tORDER BY rating DESC, reviews_count DESC\n\t\tLIMIT 20\n\t"

def getFeaturedBooksDest : List (Dest Book) :=
  [destID, destTitle, destAuthor, destPrice, destRating, destReviewsCount, destCategory,
   destCreatedAt, destUpdatedAt]

def getFeaturedBooks : Handler := fun db _ =>
  let stmt : Stmt := ⟨getFeaturedBooksSQL, []⟩
  match db.Query stmt.sql stmt.args with
  | Except.error err => ⟨⟨StatusInternalServerError, errorBody err⟩, [stmt]⟩
  | Except.ok rows =>
    let books := collectBooks getFeaturedBooksDest rows.rows
    ⟨⟨StatusOK, (orEmpty books).toJson Book.toJson⟩, [stmt]⟩

/-! ### getNewBooks -/

def getNewBooksSQL : String :=
  "\n\t\tSELECT id, title, author, price, created_at, is_new, category, updated_at\n\t\tFROM books\n\t\tWHERE is_new = true OR created_at >= NOW() - INTERVAL '30 days'\n\t\tORDER BY created_at DESC\n\t\tLIMIT 20\n\t"

def getNewBooksDest : List (Dest Book) :=
  [destID, destTitle, destAuthor, destPrice, destCreatedAt, destIsNew, destCategory,
   destUpdatedAt]

def getNewBooks : Handler := fun db _ =>
  let stmt : Stmt := ⟨getNewBooksSQL, []⟩
  match db.Query stmt.sql stmt.args with
  | Except.error err => ⟨⟨StatusInternalServerError, errorBody err⟩, [stmt]⟩
  | Except.ok rows =>
    let books := collectBooks getNewBooksDest rows.rows
    ⟨⟨StatusOK, (orEmpty books).toJson Book.toJson⟩, [stmt]⟩

/-! ### getDiscountedBooks -/

def getDiscountedBooksSQL : String :=
  "\n\t\tSELECT id, title, author, price, original_price, discount, category, created_at, updated_at\n\t\tFROM books\n\t\tWHERE discount > 0\n\t\tORDER BY discount DESC\n\t"

def getDiscountedBooksDest : List (Dest Book) :=
  [destID, destTitle, destAuthor, destPrice, destOriginalPrice, destDiscount, destCategory,
   destCreatedAt, destUpdatedAt]

def getDiscountedBooks : Handler := fun db _ =>
  let stmt : Stmt := ⟨getDiscountedBooksSQL, []⟩
  match db.Query stmt.sql stmt.args with
  | Except.error err => ⟨⟨StatusInternalServerError, errorBody err⟩, [stmt]⟩
  | Except.ok rows =>
    let books := collectBooks getDiscountedBooksDest rows.rows
    ⟨⟨StatusOK, (orEmpty books).toJson Book.toJson⟩, [stmt]⟩

/-- The routes registered on the group `/api/v1` in `main`, in order. -/
def apiV1 : List (String × String × Handler) :=
  [("GET", "/books", getAllBooks),
   ("GET", "/books/:id", getBook),
   ("POST", "/books", createBook),
   ("PUT", "/books/:id", updateBook),
   ("DELETE", "/books/:id", deleteBook),
   ("GET", "/categories", getAllCategories),
   ("GET", "/books/search", searchBooks),
   ("GET", "/books/featured", getFeaturedBooks),
   ("GET", "/books/new", getNewBooks),
   ("GET", "/books/discounted", getDiscountedBooks)]

end Week11

/-! ## Stored decimals and their conversion to `float64` -/

/-- A finite value of a `decimal` column, or a decimal literal of a statement:
`mantissa / 10 ^ scale`. -/
structure Decimal where
  mantissa : Int
  scale : Nat
deriving DecidableEq, Repr

/-- The number a decimal denotes. -/
def Decimal.toRat (x : Decimal) : Rat := x.mantissa / 10 ^ x.scale

/-- The integer nearest to `x`, a tie going to the even neighbour. -/
def roundHalfEven (x : Rat) : Int :=
  if x - ⌊x⌋ < 1 / 2 then ⌊x⌋
  else if 1 / 2 < x - ⌊x⌋ then ⌊x⌋ + 1
  else if ⌊x⌋ % 2 = 0 then ⌊x⌋ else ⌊x⌋ + 1

/-- The exponent of the spacing of the `float64` values around a positive `q`: 52 below
the binary exponent of `q`, which is taken as `-1022` at least (subnormal numbers). -/
def ulpExponent (q : Rat) : Int := max (Int.log 2 q) (-1022) - 52

/-- The multiple of the spacing nearest to a positive `q` (ties to even). -/
def nearestPos (q : Rat) : Rat := roundHalfEven (q / 2 ^ ulpExponent q) * 2 ^ ulpExponent q

/-- The binary floating-point number with 53 significant bits nearest to `q`. -/
def nearestFloat64 (q : Rat) : Rat :=
  if 0 < q then nearestPos q else if q < 0 then -nearestPos (-q) else 0

/-- What `convertAssign` stores in a `*float64` for a decimal column: the value of
`strconv.ParseFloat` on the decimal's text, which is the nearest `float64`; `none` when
`ParseFloat` reports a range error, the nearest number being `2 ^ 1024` or beyond. -/
def float64Of (x : Decimal) : Option Float64 :=
  if |nearestFloat64 x.toRat| < 2 ^ 1024 then some (nearestFloat64 x.toRat) else none

/-! ## The statements as the relational engine reads them -/

namespace Sql

end Sql

/-! ## The books table -/

namespace Week11

/-- Modelled from the spec: the columns of the `books` table, whose schema is not part of
the source.  The data model names the attributes and their kinds (decimal price, original
price and rating); as it does not say which columns are declared `NOT NULL`, every column
but the identifier may hold NULL (`none`). -/
structure BookRecord where
  id : Int
  title : Option String
  author : Option String
  isbn : Option String
  year : Option Int
  price : Option Decimal
  category : Option String
  originalPrice : Option Decimal
  discount : Option Int
  coverImage : Option String
  rating : Option Decimal
  reviewsCount : Option Int
  isNew : Option Bool
  pages : Option Int
  language : Option String
  publisher : Option String
  description : Option String
  createdAt : Option Time
  updatedAt : Option Time
deriving DecidableEq, Repr

/-- A stored value. -/
inductive Datum where
  | null : Datum
  | int (n : Int) : Datum
  | decimal (x : Decimal) : Datum
  | text (s : String) : Datum
  | bool (b : Bool) : Datum
  | time (t : Time) : Datum
deriving DecidableEq, Repr

/-- The stored value of an optional attribute. -/
def Datum.ofOption {α : Type} (f : α → Datum) : Option α → Datum
  | some a => f a
  | none => Datum.null

/-- The value a row holds in the column `name`; `none` when the table has no such column. -/
def BookRecord.column (r : BookRecord) (name : String) : Option Datum :=
  if name = "id" then some (Datum.int r.id)
  else if name = "title" then some (Datum.ofOption Datum.text r.title)
  else if name = "author" then some (Datum.ofOption Datum.text r.author)
  else if name = "isbn" then some (Datum.ofOption Datum.text r.isbn)
  else if name = "year" then some (Datum.ofOption Datum.int r.year)
  else if name = "price" then some (Datum.ofOption Datum.decimal r.price)
  else if name = "category" then some (Datum.ofOption Datum.text r.category)
  else if name = "original_price" then some (Datum.ofOption Datum.decimal r.originalPrice)
  else if name = "discount" then some (Datum.ofOption Datum.int r.discount)
  else if name = "cover_image" then some (Datum.ofOption Datum.text r.coverImage)
  else if name = "rating" then some (Datum.ofOption Datum.decimal r.rating)
  else if name = "reviews_count" then some (Datum.ofOption Datum.int r.reviewsCount)
  else if name = "is_new" then some (Datum.ofOption Datum.bool r.isNew)
  else if name = "pages" then some (Datum.ofOption Datum.int r.pages)
  else if name = "language" then some (Datum.ofOption Datum.text r.language)
  else if name = "publisher" then some (Datum.ofOption Datum.text r.publisher)
  else if name = "description" then some (Datum.ofOption Datum.text r.description)
  else if name = "created_at" then some (Datum.ofOption Datum.time r.createdAt)
  else if name = "updated_at" then some (Datum.ofOption Datum.time r.updatedAt)
  else none

end Week11

/-! ## Column values used in the examples -/

/-- Message of the error `Rows.Scan` returns for a column; `column` is the text
`index i, name "n"` locating it. -/
def scanError (column cause : String) : String :=
  "sql: Scan error on column " ++ column ++ ": " ++ cause

/-- A NULL column: no conversion into a non-pointer destination is supported. -/
def SqlValue.null (column : String) : SqlValue where
  isNull := true
  toInt := Except.error (scanError column "converting NULL to int is unsupported")
  toText := Except.error (scanError column "converting NULL to string is unsupported")
  toFloat64 := Except.error (scanError column "converting NULL to float64 is unsupported")
  toBool := Except.error
    (scanError column "sql/driver: couldn't convert <nil> (<nil>) into type bool")
  toTime := Except.error
    (scanError column "unsupported Scan, storing driver.Value type <nil> into type *time.Time")

/-- An `int64` column value (as the driver delivers integer columns), for `n` small enough
to be a `float64`. -/
def SqlValue.int64 (column : String) (n : Int) : SqlValue where
  isNull := false
  toInt := Except.ok n
  toText := Except.ok (toString n)
  toFloat64 := Except.ok n
  toBool :=
    if n = 0 then Except.ok false
    else if n = 1 then Except.ok true
    else Except.error
      (scanError column ("sql/driver: couldn't convert " ++ toString n ++ " into type bool"))
  toTime := Except.error
    (scanError column "unsupported Scan, storing driver.Value type int64 into type *time.Time")

/-- A `string` column value (as the driver delivers text columns) for a text `s` that spells
neither a number nor a boolean; `quoted` is `s` as Go prints it with `%q`. -/
def SqlValue.text (column s quoted : String) : SqlValue where
  isNull := false
  toInt := Except.error (scanError column
    ("converting driver.Value type string (" ++ quoted ++ ") to a int: invalid syntax"))
  toText := Except.ok s
  toFloat64 := Except.error (scanError column
    ("converting driver.Value type string (" ++ quoted ++ ") to a float64: invalid syntax"))
  toBool := Except.error (scanError column
    ("sql/driver: couldn't convert " ++ quoted ++ " into type bool"))
  toTime := Except.error (scanError column
    "unsupported Scan, storing driver.Value type string into type *time.Time")

/-- A `float64` column value `x` with a fractional part; `text` is `x` as `strconv`
formats it. -/
def SqlValue.float64 (column : String) (x : Float64) (text : String) : SqlValue where
  isNull := false
  toInt := Except.error (scanError column
    ("converting driver.Value type float64 (\"" ++ text ++ "\") to a int: invalid syntax"))
  toText := Except.ok text
  toFloat64 := Except.ok x
  toBool := Except.error (scanError column
    ("sql/driver: couldn't convert " ++ text ++ " (float64) into type bool"))
  toTime := Except.error (scanError column
    "unsupported Scan, storing driver.Value type float64 into type *time.Time")

/-- A `time.Time` column value; `rfc3339` is the instant in RFC 3339 form and `printed` the
instant as Go prints it with `%v`. -/
def SqlValue.timestamp (column : String) (t : Time) (rfc3339 printed : String) : SqlValue where
  isNull := false
  toInt := Except.error (scanError column
    ("converting driver.Value type time.Time (\"" ++ printed ++ "\") to a int: invalid syntax"))
  toText := Except.ok rfc3339
  toFloat64 := Except.error (scanError column
    ("converting driver.Value type time.Time (\"" ++ printed
      ++ "\") to a float64: invalid syntax"))
  toBool := Except.error (scanError column
    ("sql/driver: couldn't convert " ++ printed ++ " (time.Time) into type bool"))
  toTime := Except.ok t

/-- A `bool` column value. -/
def SqlValue.boolean (column : String) (b : Bool) : SqlValue where
  isNull := false
  toInt := Except.error (scanError column
    ("converting driver.Value type bool (\"" ++ toString b ++ "\") to a int: invalid syntax"))
  toText := Except.ok (toString b)
  toFloat64 := Except.error (scanError column
    ("converting driver.Value type bool (\"" ++ toString b ++ "\") to a float64: invalid syntax"))
  toBool := Except.ok b
  toTime := Except.error (scanError column
    "unsupported Scan, storing driver.Value type bool into type *time.Time")

/-- A database that answers every query with the result set `rows` and reports `affected`
rows to every `Exec`. -/
def DB.answering (rows : List (List SqlValue)) (affected : Int) : DB where
  Query := fun _ _ => Except.ok ⟨rows, none, none⟩
  Exec := fun _ _ => Except.ok ⟨Except.ok affected⟩

/-- A database whose every call fails with the message `msg`. -/
def DB.failing (msg : String) : DB where
  Query := fun _ _ => Except.error msg
  Exec := fun _ _ => Except.error msg

namespace Week11

/-- A request without a body (`ShouldBindJSON` then fails with `EOF`), with the given path
and query parameters. -/
def Context.bare (params query : List (String × String)) : Context :=
  ⟨params, query, Except.error "EOF"⟩

/-- The book decoded from the body `{"title":"A","author":"B","isbn":"123","year":2020,"price":9.75}`. -/
def bookA : Book :=
  { Book.zero with Title := "A", Author := "B", ISBN := "123", Year := 2020, Price := 9.75 }

/-- The outcome of one turn of the loop of `getAllCategories`: the category to append, if
the scan of the row succeeded. -/
def scannedCategory (cols : List SqlValue) : Option String :=
  match rowsScan categoryDest cols "" with
  | (cat, none) => some cat
  | (_, some _) => none

/-- The row delivered for `neuromancer` by the search query: a book inserted by
`createBook`, which sets no category, so that the `category` column is NULL. -/
def neuromancerSearchRow : List SqlValue :=
  [SqlValue.int64 "index 0, name \"id\"" 2,
   SqlValue.text "index 1, name \"title\"" "Neuromancer" "\"Neuromancer\"",
   SqlValue.text "index 2, name \"author\"" "William Gibson" "\"William Gibson\"",
   SqlValue.text "index 3, name \"isbn\"" "978-0441569595" "\"978-0441569595\"",
   SqlValue.int64 "index 4, name \"year\"" 1984,
   SqlValue.float64 "index 5, name \"price\"" 7.5 "7.5",
   SqlValue.null "index 6, name \"category\"",
   SqlValue.float64 "index 7, name \"rating\"" 3.5 "3.5",
   SqlValue.int64 "index 8, name \"reviews_count\"" 150,
   SqlValue.boolean "index 9, name \"is_new\"" true,
   SqlValue.timestamp "index 10, name \"created_at\"" ⟨2000⟩
     "0001-01-01T00:00:00.000002Z" "0001-01-01 00:00:00.000002 +0000 UTC",
   SqlValue.timestamp "index 11, name \"updated_at\"" ⟨2000⟩
     "0001-01-01T00:00:00.000002Z" "0001-01-01 00:00:00.000002 +0000 UTC"]

/-- The row `RETURNING id, created_at, updated_at` of an insert that was given the id 12. -/
def insertedRow : List SqlValue :=
  [SqlValue.int64 "index 0, name \"id\"" 12,
   SqlValue.timestamp "index 1, name \"created_at\"" ⟨1000⟩
     "0001-01-01T00:00:00.000001Z" "0001-01-01 00:00:00.000001 +0000 UTC",
   SqlValue.timestamp "index 2, name \"updated_at\"" ⟨1000⟩
     "0001-01-01T00:00:00.000001Z" "0001-01-01 00:00:00.000001 +0000 UTC"]

/-- The row `RETURNING id , updated_at` of the update of book 2. -/
def neuromancerUpdateRow : List SqlValue :=
  [SqlValue.int64 "index 0, name \"id\"" 2,
   SqlValue.timestamp "index 1, name \"updated_at\"" ⟨5000⟩
     "0001-01-01T00:00:00.000005Z" "0001-01-01 00:00:00.000005 +0000 UTC"]

end Week11

/-- A response that, if its status is 400, 404 or 500, has as body an object with the
single key `error` holding a string, which is `book not found` for status 404. -/
def ErrorShaped (r : Response) : Prop :=
  (r.status = 400 ∨ r.status = 404 ∨ r.status = 500) →
    ∃ msg : String, r.body = Json.obj [("error", Json.str msg)] ∧
      (r.status = 404 → msg = "book not found")

/-! ## week5-assignment1: the reservation listing -/

namespace Week5

/-- The struct `Reservation`. -/
structure Reservation where
  ID : String
  Name : String
  Room_id : String
  Date : String
  TimeStart : String
  TimeEnd : String
  Purpose : String
deriving DecidableEq, Repr

/-- JSON encoding of a `Reservation` following its struct tags. -/
def Reservation.toJson (r : Reservation) : Json :=
  Json.obj
    [("id", Json.str r.ID), ("name", Json.str r.Name), ("room_id", Json.str r.Room_id),
     ("date", Json.str r.Date), ("time_start", Json.str r.TimeStart),
     ("time_end", Json.str r.TimeEnd), ("purpose", Json.str r.Purpose)]

/-- The initial value of the package variable `reservations`. -/
def reservations : Slice Reservation :=
  Slice.items
    [⟨"1", "John Doe", "101", "2025-09-10", "13:00", "15:00", "ติวคณิตศาสตร์"⟩,
     ⟨"2", "Jane Smith", "103", "2025-09-12", "10:00", "12:00", "ประชุมงานกลุ่ม"⟩]

/-- The request as `getReservations` reads it: its query parameters. -/
structure Context where
  query : List (String × String)

/-- Method `c.Query`: the value of a query parameter, empty when absent. -/
def Context.Query (c : Context) (key : String) : String := (c.query.lookup key).getD ""

/-- The handler `getReservations`, with the package variable `reservations` passed in and
handed back next to the response. -/
def getReservations (reservations : Slice Reservation) (c : Context) :
    Response × Slice Reservation :=
  let dateQuery := c.Query "date"
  if dateQuery ≠ "" then
    let filter : Slice Reservation :=
      reservations.toList.foldl
        (fun filter r => if r.Date = dateQuery then filter.append r else filter)
        (Slice.items [])
    (⟨StatusOK, filter.toJson Reservation.toJson⟩, reservations)
  else
    (⟨StatusOK, reservations.toJson Reservation.toJson⟩, reservations)

end Week5

/-! ## Theorems -/

namespace Week11

/-- C1: `deleteBook` answers 404 with `book not found` whenever the delete statement ran
and reported zero affected rows, and it answers 200 (then with the confirmation message)
only when the statement ran without error and reported a non-zero count. -/
theorem deleteBook_zero_rows_not_found (db : DB) (c : Context) :
    (∀ result, db.Exec deleteBookSQL [SqlArg.text (c.Param "id")] = Except.ok result →
        result.RowsAffected = Except.ok 0 →
        (deleteBook db c).response.status = 404 ∧
          (deleteBook db c).response.body = Json.obj [("error", Json.str "book not found")]) ∧
    ((deleteBook db c).response.status = 200 →
        (deleteBook db c).response.body =
            Json.obj [("message", Json.str "book deleted successfully")] ∧
          ∃ result n, db.Exec deleteBookSQL [SqlArg.text (c.Param "id")] = Except.ok result ∧
            result.RowsAffected = Except.ok n ∧ n ≠ 0) := by
  refine ⟨?_, ?_⟩
  · intro result hexec hrows
    simp [deleteBook, hexec, hrows, StatusNotFound, errorBody]
  · intro h
    cases hexec : db.Exec deleteBookSQL [SqlArg.text (c.Param "id")] with
    | error e => simp [deleteBook, hexec, StatusInternalServerError] at h
    | ok result =>
      cases hrows : result.RowsAffected with
      | error e => simp [deleteBook, hexec, hrows, StatusInternalServerError] at h
      | ok n =>
        by_cases hn : n = 0
        · simp [deleteBook, hexec, hrows, hn, StatusNotFound] at h
        · refine ⟨?_, result, n, rfl, hrows, hn⟩
          simp [deleteBook, hexec, hrows, hn, messageBody]

/-- Witness of C1: a delete that affects no row is answered 404, and the 200 of a delete
that affects one row comes with a non-zero count. -/
theorem deleteBook_zero_rows_not_found_witness :
    ((deleteBook (DB.answering [] 0) ⟨[("id", "999999")], [], Except.error "EOF"⟩).response.status
        = 404 ∧
      (deleteBook (DB.answering [] 0) ⟨[("id", "999999")], [], Except.error "EOF"⟩).response.body
        = Json.obj [("error", Json.str "book not found")]) ∧
    (deleteBook (DB.answering [] 1) ⟨[("id", "1")], [], Except.error "EOF"⟩).response.body =
      Json.obj [("message", Json.str "book deleted successfully")] :=
  ⟨(deleteBook_zero_rows_not_found (DB.answering [] 0)
      ⟨[("id", "999999")], [], Except.error "EOF"⟩).1 ⟨Except.ok 0⟩ rfl rfl,
   ((deleteBook_zero_rows_not_found (DB.answering [] 1)
      ⟨[("id", "1")], [], Except.error "EOF"⟩).2 rfl).1⟩

end Week11

/-! ### Loops over result sets -/

theorem Slice.foldl_append_items {α β : Type} (f : β → α) (l : List β) (xs : List α) :
    l.foldl (fun acc x => acc.append (f x)) (Slice.items xs) = Slice.items (xs ++ l.map f) := by
  induction l generalizing xs with
  | nil => simp
  | cons x l ih =>
    rw [List.foldl_cons]
    show List.foldl (fun acc x => acc.append (f x)) (Slice.items (xs ++ [f x])) l = _
    rw [ih]
    simp

theorem Slice.foldl_append_nil {α β : Type} (f : β → α) (x : β) (l : List β) :
    (x :: l).foldl (fun acc x => acc.append (f x)) Slice.nil = Slice.items ((x :: l).map f) := by
  rw [List.foldl_cons]
  show List.foldl (fun acc x => acc.append (f x)) (Slice.items [f x]) l = _
  rw [Slice.foldl_append_items]
  simp

namespace Week11

/-- The book appended for a row: whatever `Scan` wrote into a fresh `Book`. -/
theorem orEmpty_collectBooks (dest : List (Dest Book)) (rows : List (List SqlValue)) :
    orEmpty (collectBooks dest rows) =
      Slice.items (rows.map (fun cols => (rowsScan dest cols Book.zero).1)) := by
  cases rows with
  | nil => simp [collectBooks, orEmpty, Slice.isNil]
  | cons cols rows =>
    unfold collectBooks
    rw [Slice.foldl_append_nil (fun cols => (rowsScan dest cols Book.zero).1)]
    simp [orEmpty, Slice.isNil]

/-- C6: in each of the six list-style reads, a query that succeeds and delivers no row is
answered with status 200 and the empty JSON array, which is not `null`. -/
theorem list_reads_empty_result_empty_array (db : DB) (c : Context) (rows : Rows)
    (hrows : rows.rows = []) :
    (db.Query getAllBooksSQL [] = Except.ok rows →
      (getAllBooks db c).response.status = 200 ∧
        (getAllBooks db c).response.body = Json.arr [] ∧
        (getAllBooks db c).response.body ≠ Json.null) ∧
    (db.Query getAllCategoriesSQL [] = Except.ok rows →
      (getAllCategories db c).response.status = 200 ∧
        (getAllCategories db c).response.body = Json.arr [] ∧
        (getAllCategories db c).response.body ≠ Json.null) ∧
    (c.Query "q" ≠ "" →
      db.Query searchBooksSQL [SqlArg.text ("%" ++ c.Query "q" ++ "%")] = Except.ok rows →
      (searchBooks db c).response.status = 200 ∧
        (searchBooks db c).response.body = Json.arr [] ∧
        (searchBooks db c).response.body ≠ Json.null) ∧
    (db.Query getFeaturedBooksSQL [] = Except.ok rows →
      (getFeaturedBooks db c).response.status = 200 ∧
        (getFeaturedBooks db c).response.body = Json.arr [] ∧
        (getFeaturedBooks db c).response.body ≠ Json.null) ∧
    (db.Query getNewBooksSQL [] = Except.ok rows →
      (getNewBooks db c).response.status = 200 ∧
        (getNewBooks db c).response.body = Json.arr [] ∧
        (getNewBooks db c).response.body ≠ Json.null) ∧
    (db.Query getDiscountedBooksSQL [] = Except.ok rows →
      (getDiscountedBooks db c).response.status = 200 ∧
        (getDiscountedBooks db c).response.body = Json.arr [] ∧
        (getDiscountedBooks db c).response.body ≠ Json.null) := by
  refine ⟨?_, ?_, ?_, ?_, ?_, ?_⟩
  · intro hq
    simp [getAllBooks, hq, hrows, collectBooks, orEmpty, Slice.isNil, Slice.toJson, StatusOK]
  · intro hq
    simp [getAllCategories, hq, hrows, collectCategories, orEmpty, Slice.isNil, Slice.toJson,
      StatusOK]
  · intro hne hq
    simp [searchBooks, hne, hq, hrows, collectBooks, orEmpty, Slice.isNil, Slice.toJson,
      StatusOK]
  · intro hq
    simp [getFeaturedBooks, hq, hrows, collectBooks, orEmpty, Slice.isNil, Slice.toJson,
      StatusOK]
  · intro hq
    simp [getNewBooks, hq, hrows, collectBooks, orEmpty, Slice.isNil, Slice.toJson, StatusOK]
  · intro hq
    simp [getDiscountedBooks, hq, hrows, collectBooks, orEmpty, Slice.isNil, Slice.toJson,
      StatusOK]

/-- Witness of C6: with a database whose queries deliver no row, all six reads answer with
the empty array. -/
theorem list_reads_empty_result_empty_array_witness :
    (getAllBooks (DB.answering [] 0) (Context.bare [] [("q", "go")])).response.body
        = Json.arr [] ∧
    (getAllCategories (DB.answering [] 0) (Context.bare [] [("q", "go")])).response.body
        = Json.arr [] ∧
    (searchBooks (DB.answering [] 0) (Context.bare [] [("q", "go")])).response.body
        = Json.arr [] ∧
    (getFeaturedBooks (DB.answering [] 0) (Context.bare [] [("q", "go")])).response.body
        = Json.arr [] ∧
    (getNewBooks (DB.answering [] 0) (Context.bare [] [("q", "go")])).response.body
        = Json.arr [] ∧
    (getDiscountedBooks (DB.answering [] 0) (Context.bare [] [("q", "go")])).response.body
        = Json.arr [] :=
  have h := list_reads_empty_result_empty_array (DB.answering [] 0)
    (Context.bare [] [("q", "go")]) ⟨[], none, none⟩ rfl
  ⟨(h.1 rfl).2.1, (h.2.1 rfl).2.1, (h.2.2.1 (by decide) rfl).2.1, (h.2.2.2.1 rfl).2.1,
   (h.2.2.2.2.1 rfl).2.1, (h.2.2.2.2.2 rfl).2.1⟩

/-- C3: `searchBooks` rejects an empty or missing keyword `q` with 400 and
`missing search query` without sending any statement, and for a non-empty keyword whose
query succeeds without a row it answers 200 with the empty array, not `null`. -/
theorem searchBooks_keyword_required (db : DB) (c : Context) :
    (c.Query "q" = "" →
      (searchBooks db c).response.status = 400 ∧
        (searchBooks db c).response.body = Json.obj [("error", Json.str "missing search query")] ∧
        (searchBooks db c).issued = []) ∧
    (c.Query "q" ≠ "" → ∀ rows : Rows,
      db.Query searchBooksSQL [SqlArg.text ("%" ++ c.Query "q" ++ "%")] = Except.ok rows →
      rows.rows = [] →
      (searchBooks db c).response.status = 200 ∧
        (searchBooks db c).response.body = Json.arr [] ∧
        (searchBooks db c).response.body ≠ Json.null) := by
  refine ⟨?_, ?_⟩
  · intro hq
    simp [searchBooks, hq, StatusBadRequest, errorBody]
  · intro hne rows hq hrows
    simp [searchBooks, hne, hq, hrows, collectBooks, orEmpty, Slice.isNil, Slice.toJson,
      StatusOK]

/-- Witness of C3: a request without `q`, a request with `q=`, and a search for `zzz` that
matches nothing. -/
theorem searchBooks_keyword_required_witness :
    ((searchBooks (DB.answering [] 0) (Context.bare [] [])).response.status = 400 ∧
      (searchBooks (DB.answering [] 0) (Context.bare [] [])).issued = []) ∧
    ((searchBooks (DB.answering [] 0) (Context.bare [] [("q", "")])).response.status = 400 ∧
      (searchBooks (DB.answering [] 0) (Context.bare [] [("q", "")])).issued = []) ∧
    ((searchBooks (DB.answering [] 0) (Context.bare [] [("q", "zzz")])).response.status = 200 ∧
      (searchBooks (DB.answering [] 0) (Context.bare [] [("q", "zzz")])).response.body
        = Json.arr []) :=
  have h0 := (searchBooks_keyword_required (DB.answering [] 0) (Context.bare [] [])).1
    (by decide)
  have h1 := (searchBooks_keyword_required (DB.answering [] 0)
    (Context.bare [] [("q", "")])).1 (by decide)
  have h2 := (searchBooks_keyword_required (DB.answering [] 0)
    (Context.bare [] [("q", "zzz")])).2 (by decide) ⟨[], none, none⟩ rfl rfl
  ⟨⟨h0.1, h0.2.2⟩, ⟨h1.1, h1.2.2⟩, ⟨h2.1, h2.2.1⟩⟩

end Week11

/-! ### `Row.Scan` -/

theorem rowsScan_ne_errNoRows {σ : Type} (dest : List (Dest σ)) (cols : List SqlValue) (s : σ) :
    (rowsScan dest cols s).2 ≠ some GoError.ErrNoRows := by
  unfold rowsScan
  split
  · simp
  · split <;> simp

theorem Row.scan_errNoRows_iff {σ : Type} (r : Row) (dest : List (Dest σ)) (s : σ) :
    (Row.Scan r dest s).2 = some GoError.ErrNoRows ↔
      ∃ rs, r = Except.ok rs ∧ rs.rows = [] ∧ rs.err = none := by
  cases r with
  | error e => simp [Row.Scan]
  | ok rs =>
    cases hrows : rs.rows with
    | nil =>
      cases herr : rs.err with
      | none => simp [Row.Scan, hrows, herr]
      | some e => simp [Row.Scan, hrows, herr]
    | cons cols rest =>
      have hne := rowsScan_ne_errNoRows dest cols s
      cases hscan : rowsScan dest cols s with
      | mk s1 e =>
        rw [hscan] at hne
        cases e with
        | none =>
          cases hclose : rs.closeErr <;> simp [Row.Scan, hrows, hscan, hclose]
        | some e =>
          have : e ≠ GoError.ErrNoRows := fun h => hne (by simp [h])
          simp [Row.Scan, hrows, hscan, this]

namespace Week11

/-- A scan into `&book.ID, &book.Title, &book.Author` that returns no error has read a
first row of three columns and left every other field of the book untouched. -/
theorem getBook_scan_ok (r : Row) (book : Book)
    (h : Row.Scan r getBookDest Book.zero = (book, none)) :
    ∃ rs c0 c1 c2 rest id title author,
      r = Except.ok rs ∧ rs.rows = [c0, c1, c2] :: rest ∧ rs.closeErr = none ∧
      c0.toInt = Except.ok id ∧ c1.toText = Except.ok title ∧ c2.toText = Except.ok author ∧
      book = { Book.zero with ID := id, Title := title, Author := author } := by
  cases r with
  | error e => simp [Row.Scan] at h
  | ok rs =>
    cases hrows : rs.rows with
    | nil => cases herr : rs.err <;> simp [Row.Scan, hrows, herr] at h
    | cons cols rest =>
      rcases cols with _ | ⟨c0, _ | ⟨c1, _ | ⟨c2, _ | ⟨c3, t⟩⟩⟩⟩
      · simp [Row.Scan, hrows, rowsScan, getBookDest] at h
      · simp [Row.Scan, hrows, rowsScan, getBookDest] at h
      · simp [Row.Scan, hrows, rowsScan, getBookDest] at h
      · cases h0 : c0.toInt with
        | error e =>
          simp [Row.Scan, hrows, rowsScan, getBookDest, scanColumns, convertAssign, destID,
            destTitle, destAuthor, assignResult, h0] at h
        | ok id =>
          cases h1 : c1.toText with
          | error e =>
            simp [Row.Scan, hrows, rowsScan, getBookDest, scanColumns, convertAssign, destID,
              destTitle, destAuthor, assignResult, h0, h1] at h
          | ok title =>
            cases h2 : c2.toText with
            | error e =>
              simp [Row.Scan, hrows, rowsScan, getBookDest, scanColumns, convertAssign,
                destID, destTitle, destAuthor, assignResult, h0, h1, h2] at h
            | ok author =>
              simp [Row.Scan, hrows, rowsScan, getBookDest, scanColumns, convertAssign,
                destID, destTitle, destAuthor, assignResult, h0, h1, h2] at h
              exact ⟨rs, c0, c1, c2, rest, id, title, author, rfl, hrows, h.2, h0, h1, h2,
                h.1.symm⟩
      · simp [Row.Scan, hrows, rowsScan, getBookDest] at h

/-- C5: `getBook` answers 404 exactly when the lookup ends without error and without a row,
then with the body `book not found`; every other error of the query or of the scan is
answered 500 with that error's message; a scan without error is answered 200 with a book
whose id, title and author are the three columns of the row and whose other fields are
zero. -/
theorem getBook_not_found_error_or_projection (db : DB) (c : Context) :
    ((getBook db c).response.status = 404 ↔
      ∃ rs, db.Query getBookSQL [SqlArg.text (c.Param "id")] = Except.ok rs ∧
        rs.rows = [] ∧ rs.err = none) ∧
    ((getBook db c).response.status = 404 →
      (getBook db c).response.body = Json.obj [("error", Json.str "book not found")]) ∧
    (∀ err : GoError,
      ((db.QueryRow getBookSQL [SqlArg.text (c.Param "id")]).Scan getBookDest Book.zero).2
          = some err →
      err ≠ GoError.ErrNoRows →
      (getBook db c).response.status = 500 ∧
        (getBook db c).response.body = Json.obj [("error", Json.str err.Error)]) ∧
    (((db.QueryRow getBookSQL [SqlArg.text (c.Param "id")]).Scan getBookDest Book.zero).2
          = none →
      ∃ rs c0 c1 c2 rest id title author,
        db.Query getBookSQL [SqlArg.text (c.Param "id")] = Except.ok rs ∧
        rs.rows = [c0, c1, c2] :: rest ∧
        c0.toInt = Except.ok id ∧ c1.toText = Except.ok title ∧ c2.toText = Except.ok author ∧
        (getBook db c).response.status = 200 ∧
        (getBook db c).response.body =
          Book.toJson { Book.zero with ID := id, Title := title, Author := author }) := by
  have hiff := Row.scan_errNoRows_iff (db.QueryRow getBookSQL [SqlArg.text (c.Param "id")])
    getBookDest Book.zero
  cases hscan : (db.QueryRow getBookSQL [SqlArg.text (c.Param "id")]).Scan getBookDest
      Book.zero with
  | mk book e =>
    rw [hscan] at hiff
    cases e with
    | none =>
      obtain ⟨rs, c0, c1, c2, rest, id, title, author, hq, hrows, _, h0, h1, h2, hbook⟩ :=
        getBook_scan_ok _ book hscan
      have hq2 : db.Query getBookSQL [SqlArg.text (c.Param "id")] = Except.ok rs := hq
      refine ⟨?_, ?_, ?_, ?_⟩
      · simp [getBook, hscan, StatusOK, hq2, hrows]
      · simp [getBook, hscan, StatusOK]
      · intro err h
        simp at h
      · intro _
        exact ⟨rs, c0, c1, c2, rest, id, title, author, hq2, hrows, h0, h1, h2,
          by simp [getBook, hscan, StatusOK], by simp [getBook, hscan, hbook]⟩
    | some e =>
      cases e with
      | ErrNoRows =>
        have hex := hiff.mp rfl
        refine ⟨?_, ?_, ?_, ?_⟩
        · simp only [getBook, hscan, StatusNotFound, true_iff]
          exact hex
        · simp [getBook, hscan, errorBody]
        · intro err h hne
          simp at h
          exact absurd h.symm hne
        · intro h
          simp at h
      | other msg =>
        have hnot : ¬ ∃ rs, db.Query getBookSQL [SqlArg.text (c.Param "id")] = Except.ok rs ∧
            rs.rows = [] ∧ rs.err = none := by
          intro hex
          have := hiff.mpr hex
          simp at this
        refine ⟨?_, ?_, ?_, ?_⟩
        · simp only [getBook, hscan, StatusInternalServerError]
          constructor
          · intro h
            simp at h
          · intro h
            exact absurd h hnot
        · simp [getBook, hscan, StatusInternalServerError]
        · intro err h _
          simp at h
          subst h
          simp [getBook, hscan, StatusInternalServerError, errorBody, GoError.Error]
        · intro h
          simp at h

/-- Witness of C5: `GET /books/999999` on a table without that row is answered 404; a
lookup the engine rejects is answered 500 with the engine's message; a lookup that finds
the row `(7, Dune, Frank Herbert)` is answered 200. -/
theorem getBook_not_found_error_or_projection_witness :
    ((getBook (DB.answering [] 0) (Context.bare [("id", "999999")] [])).response.status = 404 ∧
      (getBook (DB.answering [] 0) (Context.bare [("id", "999999")] [])).response.body
        = Json.obj [("error", Json.str "book not found")]) ∧
    ((getBook (DB.failing "pq: invalid input syntax for type integer")
        (Context.bare [("id", "abc")] [])).response.status = 500 ∧
      (getBook (DB.failing "pq: invalid input syntax for type integer")
        (Context.bare [("id", "abc")] [])).response.body
        = Json.obj [("error", Json.str "pq: invalid input syntax for type integer")]) ∧
    (getBook
        (DB.answering
          [[SqlValue.int64 "index 0, name \"id\"" 7,
            SqlValue.text "index 1, name \"title\"" "Dune" "\"Dune\"",
            SqlValue.text "index 2, name \"author\"" "Frank Herbert" "\"Frank Herbert\""]] 0)
        (Context.bare [("id", "7")] [])).response.status = 200 := by
  refine ⟨?_, ?_, ?_⟩
  · have h := getBook_not_found_error_or_projection (DB.answering [] 0)
      (Context.bare [("id", "999999")] [])
    have h404 := h.1.mpr ⟨⟨[], none, none⟩, rfl, rfl, rfl⟩
    exact ⟨h404, h.2.1 h404⟩
  · exact (getBook_not_found_error_or_projection
      (DB.failing "pq: invalid input syntax for type integer")
      (Context.bare [("id", "abc")] [])).2.2.1
      (GoError.other "pq: invalid input syntax for type integer") rfl (by simp)
  · obtain ⟨_, _, _, _, _, _, _, _, _, _, _, _, _, hs, _⟩ :=
      (getBook_not_found_error_or_projection
        (DB.answering
          [[SqlValue.int64 "index 0, name \"id\"" 7,
            SqlValue.text "index 1, name \"title\"" "Dune" "\"Dune\"",
            SqlValue.text "index 2, name \"author\"" "Frank Herbert" "\"Frank Herbert\""]] 0)
        (Context.bare [("id", "7")] [])).2.2.2 rfl
    exact hs

/-- A scan into `&id, &createdAt, &updatedAt` that returns no error has read a first row of
three columns. -/
theorem createBook_scan_ok (r : Row) (l : CreateLocals)
    (h : Row.Scan r createBookDest ⟨0, Time.zero, Time.zero⟩ = (l, none)) :
    ∃ rs c0 c1 c2 rest,
      r = Except.ok rs ∧ rs.rows = [c0, c1, c2] :: rest ∧ rs.closeErr = none ∧
      c0.toInt = Except.ok l.id ∧ c1.toTime = Except.ok l.createdAt ∧
      c2.toTime = Except.ok l.updatedAt := by
  cases r with
  | error e => simp [Row.Scan] at h
  | ok rs =>
    cases hrows : rs.rows with
    | nil => cases herr : rs.err <;> simp [Row.Scan, hrows, herr] at h
    | cons cols rest =>
      rcases cols with _ | ⟨c0, _ | ⟨c1, _ | ⟨c2, _ | ⟨c3, t⟩⟩⟩⟩
      · simp [Row.Scan, hrows, rowsScan, createBookDest] at h
      · simp [Row.Scan, hrows, rowsScan, createBookDest] at h
      · simp [Row.Scan, hrows, rowsScan, createBookDest] at h
      · cases h0 : c0.toInt with
        | error e =>
          simp [Row.Scan, hrows, rowsScan, createBookDest, scanColumns, convertAssign,
            assignResult, h0] at h
        | ok id =>
          cases h1 : c1.toTime with
          | error e =>
            simp [Row.Scan, hrows, rowsScan, createBookDest, scanColumns, convertAssign,
              assignResult, h0, h1] at h
          | ok createdAt =>
            cases h2 : c2.toTime with
            | error e =>
              simp [Row.Scan, hrows, rowsScan, createBookDest, scanColumns, convertAssign,
                assignResult, h0, h1, h2] at h
            | ok updatedAt =>
              simp [Row.Scan, hrows, rowsScan, createBookDest, scanColumns, convertAssign,
                assignResult, h0, h1, h2] at h
              obtain ⟨hl, hclose⟩ := h
              subst hl
              exact ⟨rs, c0, c1, c2, rest, rfl, hrows, hclose, h0, h1, h2⟩
      · simp [Row.Scan, hrows, rowsScan, createBookDest] at h

/-- C4: when the body parses and the insert returns without error, `createBook` answers
201 with the parsed book in which id, created_at and updated_at are the three columns
returned by the insert and every other field is as parsed; when the body does not parse it
answers 400 and sends no statement. -/
theorem createBook_created_or_bad_request (db : DB) (c : Context) :
    (∀ e, c.bindJSON = Except.error e →
      (createBook db c).response.status = 400 ∧
        (createBook db c).response.body = Json.obj [("error", Json.str e)] ∧
        (createBook db c).issued = []) ∧
    (∀ newBook : Book, c.bindJSON = Except.ok newBook →
      ((db.QueryRow createBookSQL
          [SqlArg.text newBook.Title, SqlArg.text newBook.Author, SqlArg.text newBook.ISBN,
           SqlArg.int newBook.Year, SqlArg.float newBook.Price]).Scan createBookDest
          ⟨0, Time.zero, Time.zero⟩).2 = none →
      ∃ rs c0 c1 c2 rest id createdAt updatedAt,
        db.Query createBookSQL
          [SqlArg.text newBook.Title, SqlArg.text newBook.Author, SqlArg.text newBook.ISBN,
           SqlArg.int newBook.Year, SqlArg.float newBook.Price] = Except.ok rs ∧
        rs.rows = [c0, c1, c2] :: rest ∧
        c0.toInt = Except.ok id ∧ c1.toTime = Except.ok createdAt ∧
        c2.toTime = Except.ok updatedAt ∧
        (createBook db c).response.status = 201 ∧
        (createBook db c).response.body =
          Book.toJson { newBook with ID := id, CreatedAt := createdAt, UpdatedAt := updatedAt } ∧
        (createBook db c).issued =
          [⟨createBookSQL,
            [SqlArg.text newBook.Title, SqlArg.text newBook.Author, SqlArg.text newBook.ISBN,
             SqlArg.int newBook.Year, SqlArg.float newBook.Price]⟩]) := by
  refine ⟨?_, ?_⟩
  · intro e he
    simp [createBook, he, StatusBadRequest, errorBody]
  · intro newBook hb hnone
    cases hscan : (db.QueryRow createBookSQL
          [SqlArg.text newBook.Title, SqlArg.text newBook.Author, SqlArg.text newBook.ISBN,
           SqlArg.int newBook.Year, SqlArg.float newBook.Price]).Scan createBookDest
          ⟨0, Time.zero, Time.zero⟩ with
    | mk l e =>
      rw [hscan] at hnone
      simp at hnone
      subst hnone
      obtain ⟨rs, c0, c1, c2, rest, hq, hrows, _, h0, h1, h2⟩ := createBook_scan_ok _ l hscan
      exact ⟨rs, c0, c1, c2, rest, l.id, l.createdAt, l.updatedAt, hq, hrows, h0, h1, h2,
        by simp [createBook, hb, hscan, StatusCreated], by simp [createBook, hb, hscan],
        by simp [createBook, hb, hscan]⟩

/-- Witness of C4: a request without a body is answered 400 with no statement sent, and a
book sent with the client-chosen id 55 is answered 201, with the id 12 of the inserted row,
once the insert has returned that row. -/
theorem createBook_created_or_bad_request_witness :
    ((createBook (DB.answering [] 0) (Context.bare [] [])).response.status = 400 ∧
      (createBook (DB.answering [] 0) (Context.bare [] [])).issued = []) ∧
    ((createBook (DB.answering [insertedRow] 0)
        ⟨[], [], Except.ok { bookA with ID := 55 }⟩).response.status = 201 ∧
      (createBook (DB.answering [insertedRow] 0)
        ⟨[], [], Except.ok { bookA with ID := 55 }⟩).response.body =
        Book.toJson { bookA with ID := 12, CreatedAt := ⟨1000⟩, UpdatedAt := ⟨1000⟩ }) := by
  refine ⟨?_, ?_⟩
  · have h := (createBook_created_or_bad_request (DB.answering [] 0)
      (Context.bare [] [])).1 "EOF" rfl
    exact ⟨h.1, h.2.2⟩
  · obtain ⟨_, _, _, _, _, _, _, _, _, _, _, _, _, hs, _⟩ :=
      (createBook_created_or_bad_request (DB.answering [insertedRow] 0)
        ⟨[], [], Except.ok { bookA with ID := 55 }⟩).2 { bookA with ID := 55 } rfl rfl
    exact ⟨hs, rfl⟩

end Week11

/-! ### Shape of the failure responses -/

theorem errorShaped_error (status : Nat) (msg : String)
    (h : status = 404 → msg = "book not found") : ErrorShaped ⟨status, errorBody msg⟩ :=
  fun _ => ⟨msg, rfl, h⟩

theorem errorShaped_success (status : Nat) (body : Json) (h : status = 200 ∨ status = 201) :
    ErrorShaped ⟨status, body⟩ := by
  intro hs
  simp only at hs
  omega

namespace Week11

theorem getAllBooks_errorShaped (db : DB) (c : Context) :
    ErrorShaped (getAllBooks db c).response := by
  cases hq : db.Query getAllBooksSQL [] with
  | error e =>
    simp only [getAllBooks, hq]
    exact errorShaped_error _ _ (by simp [StatusInternalServerError])
  | ok rows =>
    simp only [getAllBooks, hq]
    exact errorShaped_success _ _ (Or.inl rfl)

theorem getAllCategories_errorShaped (db : DB) (c : Context) :
    ErrorShaped (getAllCategories db c).response := by
  cases hq : db.Query getAllCategoriesSQL [] with
  | error e =>
    simp only [getAllCategories, hq]
    exact errorShaped_error _ _ (by simp [StatusInternalServerError])
  | ok rows =>
    simp only [getAllCategories, hq]
    exact errorShaped_success _ _ (Or.inl rfl)

theorem getFeaturedBooks_errorShaped (db : DB) (c : Context) :
    ErrorShaped (getFeaturedBooks db c).response := by
  cases hq : db.Query getFeaturedBooksSQL [] with
  | error e =>
    simp only [getFeaturedBooks, hq]
    exact errorShaped_error _ _ (by simp [StatusInternalServerError])
  | ok rows =>
    simp only [getFeaturedBooks, hq]
    exact errorShaped_success _ _ (Or.inl rfl)

theorem getNewBooks_errorShaped (db : DB) (c : Context) :
    ErrorShaped (getNewBooks db c).response := by
  cases hq : db.Query getNewBooksSQL [] with
  | error e =>
    simp only [getNewBooks, hq]
    exact errorShaped_error _ _ (by simp [StatusInternalServerError])
  | ok rows =>
    simp only [getNewBooks, hq]
    exact errorShaped_success _ _ (Or.inl rfl)

theorem getDiscountedBooks_errorShaped (db : DB) (c : Context) :
    ErrorShaped (getDiscountedBooks db c).response := by
  cases hq : db.Query getDiscountedBooksSQL [] with
  | error e =>
    simp only [getDiscountedBooks, hq]
    exact errorShaped_error _ _ (by simp [StatusInternalServerError])
  | ok rows =>
    simp only [getDiscountedBooks, hq]
    exact errorShaped_success _ _ (Or.inl rfl)

theorem searchBooks_errorShaped (db : DB) (c : Context) :
    ErrorShaped (searchBooks db c).response := by
  by_cases hq0 : c.Query "q" = ""
  · simp only [searchBooks, hq0, if_true]
    exact errorShaped_error _ _ (by simp [StatusBadRequest])
  · cases hq : db.Query searchBooksSQL [SqlArg.text ("%" ++ c.Query "q" ++ "%")] with
    | error e =>
      simp only [searchBooks, hq0, if_false, hq]
      exact errorShaped_error _ _ (by simp [StatusInternalServerError])
    | ok rows =>
      simp only [searchBooks, hq0, if_false, hq]
      exact errorShaped_success _ _ (Or.inl rfl)

theorem getBook_errorShaped (db : DB) (c : Context) :
    ErrorShaped (getBook db c).response := by
  cases hscan : (db.QueryRow getBookSQL [SqlArg.text (c.Param "id")]).Scan getBookDest
      Book.zero with
  | mk book e =>
    cases e with
    | none =>
      simp only [getBook, hscan]
      exact errorShaped_success _ _ (Or.inl rfl)
    | some e =>
      cases e with
      | ErrNoRows =>
        simp only [getBook, hscan]
        exact errorShaped_error _ _ (fun _ => rfl)
      | other msg =>
        simp only [getBook, hscan]
        exact errorShaped_error _ _ (by simp [StatusInternalServerError])

theorem createBook_errorShaped (db : DB) (c : Context) :
    ErrorShaped (createBook db c).response := by
  cases hb : c.bindJSON with
  | error e =>
    simp only [createBook, hb]
    exact errorShaped_error _ _ (by simp [StatusBadRequest])
  | ok newBook =>
    cases hscan : (db.QueryRow createBookSQL
          [SqlArg.text newBook.Title, SqlArg.text newBook.Author, SqlArg.text newBook.ISBN,
           SqlArg.int newBook.Year, SqlArg.float newBook.Price]).Scan createBookDest
          ⟨0, Time.zero, Time.zero⟩ with
    | mk l e =>
      cases e with
      | none =>
        simp only [createBook, hb, hscan]
        exact errorShaped_success _ _ (Or.inr rfl)
      | some e =>
        simp only [createBook, hb, hscan]
        exact errorShaped_error _ _ (by simp [StatusInternalServerError])

theorem updateBook_errorShaped (db : DB) (c : Context) :
    ErrorShaped (updateBook db c).response := by
  cases hb : c.bindJSON with
  | error e =>
    simp only [updateBook, hb]
    exact errorShaped_error _ _ (by simp [StatusBadRequest])
  | ok b =>
    cases hscan : (db.QueryRow updateBookSQL
          [SqlArg.text b.Title, SqlArg.text b.Author, SqlArg.text b.ISBN,
           SqlArg.int b.Year, SqlArg.float b.Price, SqlArg.text (c.Param "id")]).Scan
          updateBookDest Time.zero with
    | mk t e =>
      cases e with
      | none =>
        simp only [updateBook, hb, hscan]
        exact errorShaped_success _ _ (Or.inl rfl)
      | some e =>
        cases e with
        | ErrNoRows =>
          simp only [updateBook, hb, hscan]
          exact errorShaped_error _ _ (fun _ => rfl)
        | other msg =>
          simp only [updateBook, hb, hscan]
          exact errorShaped_error _ _ (by simp [StatusInternalServerError])

theorem deleteBook_errorShaped (db : DB) (c : Context) :
    ErrorShaped (deleteBook db c).response := by
  cases hexec : db.Exec deleteBookSQL [SqlArg.text (c.Param "id")] with
  | error e =>
    simp only [deleteBook, hexec]
    exact errorShaped_error _ _ (by simp [StatusInternalServerError])
  | ok result =>
    cases hrows : result.RowsAffected with
    | error e =>
      simp only [deleteBook, hexec, hrows]
      exact errorShaped_error _ _ (by simp [StatusInternalServerError])
    | ok n =>
      by_cases hn : n = 0
      · simp only [deleteBook, hexec, hrows, hn, if_true]
        exact errorShaped_error _ _ (fun _ => rfl)
      · simp only [deleteBook, hexec, hrows, hn, if_false]
        exact errorShaped_success _ _ (Or.inl rfl)

/-- C8: whenever one of the ten handlers routed under `/api/v1` answers with status 400,
404 or 500, the body is a JSON object with the single key `error` holding a message string
(so it is not an object keyed `message`), and a 404 carries the message `book not found`. -/
theorem failure_body_is_error_object (db : DB) (c : Context) (method path : String)
    (handler : Handler) (hroute : (method, path, handler) ∈ apiV1)
    (hfail : (handler db c).response.status = 400 ∨ (handler db c).response.status = 404 ∨
      (handler db c).response.status = 500) :
    ∃ msg : String,
      (handler db c).response.body = Json.obj [("error", Json.str msg)] ∧
      ((handler db c).response.status = 404 → msg = "book not found") ∧
      ∀ m : String, (handler db c).response.body ≠ Json.obj [("message", Json.str m)] := by
  have hshape : ErrorShaped (handler db c).response := by
    simp only [apiV1, List.mem_cons, Prod.mk.injEq, List.mem_singleton, List.not_mem_nil,
      or_false] at hroute
    rcases hroute with h | h | h | h | h | h | h | h | h | h
    · rw [h.2.2]; exact getAllBooks_errorShaped db c
    · rw [h.2.2]; exact getBook_errorShaped db c
    · rw [h.2.2]; exact createBook_errorShaped db c
    · rw [h.2.2]; exact updateBook_errorShaped db c
    · rw [h.2.2]; exact deleteBook_errorShaped db c
    · rw [h.2.2]; exact getAllCategories_errorShaped db c
    · rw [h.2.2]; exact searchBooks_errorShaped db c
    · rw [h.2.2]; exact getFeaturedBooks_errorShaped db c
    · rw [h.2.2]; exact getNewBooks_errorShaped db c
    · rw [h.2.2]; exact getDiscountedBooks_errorShaped db c
  obtain ⟨msg, hbody, h404⟩ := hshape hfail
  refine ⟨msg, hbody, h404, ?_⟩
  intro m
  rw [hbody]
  simp

/-- Witness of C8: the 404 of `DELETE /books/999999` on a table without that row, the 400
of a search without keyword, and the 500 of a listing whose query fails. -/
theorem failure_body_is_error_object_witness :
    ((deleteBook (DB.answering [] 0) (Context.bare [("id", "999999")] [])).response.status
        = 404 ∧
      (deleteBook (DB.answering [] 0) (Context.bare [("id", "999999")] [])).response.body
        = Json.obj [("error", Json.str "book not found")]) ∧
    ((searchBooks (DB.answering [] 0) (Context.bare [] [])).response.status = 400 ∧
      (searchBooks (DB.answering [] 0) (Context.bare [] [])).response.body
        ≠ Json.obj [("message", Json.str "missing search query")]) ∧
    ((getAllBooks (DB.failing "pq: relation \"books\" does not exist")
        (Context.bare [] [])).response.status = 500 ∧
      (getAllBooks (DB.failing "pq: relation \"books\" does not exist")
        (Context.bare [] [])).response.body
        ≠ Json.obj [("message", Json.str "pq: relation \"books\" does not exist")]) := by
  refine ⟨?_, ?_, ?_⟩
  · obtain ⟨msg, hbody, h404, _⟩ :=
      failure_body_is_error_object (DB.answering [] 0) (Context.bare [("id", "999999")] [])
        "DELETE" "/books/:id" deleteBook (by simp [apiV1]) (Or.inr (Or.inl rfl))
    have hmsg := h404 rfl
    subst hmsg
    exact ⟨rfl, hbody⟩
  · obtain ⟨_, _, _, hne⟩ :=
      failure_body_is_error_object (DB.answering [] 0) (Context.bare [] [])
        "GET" "/books/search" searchBooks (by simp [apiV1]) (Or.inl rfl)
    exact ⟨rfl, hne _⟩
  · obtain ⟨_, _, _, hne⟩ :=
      failure_body_is_error_object (DB.failing "pq: relation \"books\" does not exist")
        (Context.bare [] []) "GET" "/books" getAllBooks (by simp [apiV1])
        (Or.inr (Or.inr rfl))
    exact ⟨rfl, hne _⟩

end Week11

/-! ### week5-assignment1 -/

theorem Slice.foldl_append_if {α : Type} (p : α → Prop) [DecidablePred p] (l : List α)
    (xs : List α) :
    l.foldl (fun acc r => if p r then acc.append r else acc) (Slice.items xs) =
      Slice.items (xs ++ l.filter (fun r => decide (p r))) := by
  induction l generalizing xs with
  | nil => simp
  | cons x l ih =>
    rw [List.foldl_cons]
    by_cases hp : p x
    · rw [if_pos hp]
      show List.foldl (fun acc r => if p r then acc.append r else acc)
        (Slice.items (xs ++ [x])) l = _
      rw [ih]
      simp [List.filter_cons, hp]
    · rw [if_neg hp, ih]
      simp [List.filter_cons, hp]

namespace Week5

/-- C10: `getReservations` always answers 200; with an empty `date` the body is the whole
reservation list as it stands; with a `date` the body is the array of exactly the
reservations whose `Date` equals it, in their original order, which is the empty array
(not `null`) when none matches; the package variable is left as it was. -/
theorem getReservations_filters_by_date (reservations : Slice Reservation) (c : Context) :
    (getReservations reservations c).1.status = 200 ∧
    (c.Query "date" = "" →
      (getReservations reservations c).1.body = reservations.toJson Reservation.toJson) ∧
    (c.Query "date" ≠ "" →
      (getReservations reservations c).1.body =
          Json.arr ((reservations.toList.filter
            (fun r => decide (r.Date = c.Query "date"))).map Reservation.toJson) ∧
        (getReservations reservations c).1.body ≠ Json.null ∧
        ((∀ r ∈ reservations.toList, r.Date ≠ c.Query "date") →
          (getReservations reservations c).1.body = Json.arr [])) ∧
    (getReservations reservations c).2 = reservations := by
  by_cases hd : c.Query "date" = ""
  · simp [getReservations, hd, StatusOK]
  · have hfold := Slice.foldl_append_if (fun r : Reservation => r.Date = c.Query "date")
      reservations.toList []
    simp only [List.nil_append] at hfold
    refine ⟨?_, ?_, ?_, ?_⟩
    · simp [getReservations, hd, StatusOK]
    · intro h
      exact absurd h hd
    · intro _
      have hbody : (getReservations reservations c).1.body =
          Json.arr ((reservations.toList.filter
            (fun r => decide (r.Date = c.Query "date"))).map Reservation.toJson) := by
        simp only [getReservations, hd, ne_eq, not_false_eq_true, if_true]
        rw [hfold]
        rfl
      refine ⟨hbody, ?_, ?_⟩
      · rw [hbody]
        simp
      · intro hnone
        rw [hbody]
        have : reservations.toList.filter (fun r => decide (r.Date = c.Query "date")) = [] := by
          rw [List.filter_eq_nil_iff]
          intro r hr
          simpa using hnone r hr
        rw [this]
        rfl
    · simp [getReservations, hd]

/-- Witness of C10 on the initial reservation list: no `date` gives both reservations,
`date=2025-09-12` gives the second one only, and a date nobody booked gives the empty
array. -/
theorem getReservations_filters_by_date_witness :
    (getReservations reservations ⟨[]⟩).1.body = reservations.toJson Reservation.toJson ∧
    (getReservations reservations ⟨[("date", "2025-09-12")]⟩).1.body =
      Json.arr [Reservation.toJson
        ⟨"2", "Jane Smith", "103", "2025-09-12", "10:00", "12:00", "ประชุมงานกลุ่ม"⟩] ∧
    (getReservations reservations ⟨[("date", "2030-01-01")]⟩).1.body = Json.arr [] :=
  ⟨(getReservations_filters_by_date reservations ⟨[]⟩).2.1 (by decide),
   ((getReservations_filters_by_date reservations ⟨[("date", "2025-09-12")]⟩).2.2.1
      (by decide)).1,
   ((getReservations_filters_by_date reservations ⟨[("date", "2030-01-01")]⟩).2.2.1
      (by decide)).2.2 (by decide)⟩

end Week5

/-! ### Rows whose scan fails -/

namespace Week11

/-- The five book listings emit one book per delivered row, whether or not the scan of the
row succeeded: the book holds whatever `Scan` wrote before it stopped. -/
theorem book_reads_emit_every_row (db : DB) (c : Context) (rows : Rows) :
    (db.Query getAllBooksSQL [] = Except.ok rows →
      (getAllBooks db c).response.body = Json.arr (rows.rows.map
        (fun cols => ((rowsScan getAllBooksDest cols Book.zero).1).toJson))) ∧
    (c.Query "q" ≠ "" →
      db.Query searchBooksSQL [SqlArg.text ("%" ++ c.Query "q" ++ "%")] = Except.ok rows →
      (searchBooks db c).response.body = Json.arr (rows.rows.map
        (fun cols => ((rowsScan searchBooksDest cols Book.zero).1).toJson))) ∧
    (db.Query getFeaturedBooksSQL [] = Except.ok rows →
      (getFeaturedBooks db c).response.body = Json.arr (rows.rows.map
        (fun cols => ((rowsScan getFeaturedBooksDest cols Book.zero).1).toJson))) ∧
    (db.Query getNewBooksSQL [] = Except.ok rows →
      (getNewBooks db c).response.body = Json.arr (rows.rows.map
        (fun cols => ((rowsScan getNewBooksDest cols Book.zero).1).toJson))) ∧
    (db.Query getDiscountedBooksSQL [] = Except.ok rows →
      (getDiscountedBooks db c).response.body = Json.arr (rows.rows.map
        (fun cols => ((rowsScan getDiscountedBooksDest cols Book.zero).1).toJson))) := by
  refine ⟨?_, ?_, ?_, ?_, ?_⟩
  · intro hq
    simp [getAllBooks, hq, orEmpty_collectBooks, Slice.toJson]
  · intro hne hq
    simp [searchBooks, hne, hq, orEmpty_collectBooks, Slice.toJson]
  · intro hq
    simp [getFeaturedBooks, hq, orEmpty_collectBooks, Slice.toJson]
  · intro hq
    simp [getNewBooks, hq, orEmpty_collectBooks, Slice.toJson]
  · intro hq
    simp [getDiscountedBooks, hq, orEmpty_collectBooks, Slice.toJson]

theorem collectCategories_items (rows : List (List SqlValue)) (xs : List String) :
    rows.foldl
        (fun categories cols =>
          match rowsScan categoryDest cols "" with
          | (cat, none) => categories.append cat
          | (_, some _) => categories)
        (Slice.items xs) =
      Slice.items (xs ++ rows.filterMap scannedCategory) := by
  induction rows generalizing xs with
  | nil => simp
  | cons cols rows ih =>
    rw [List.foldl_cons]
    cases hscan : rowsScan categoryDest cols "" with
    | mk cat e =>
      cases e with
      | none =>
        show List.foldl _ (Slice.items (xs ++ [cat])) rows = _
        rw [ih]
        simp [List.filterMap_cons, scannedCategory, hscan]
      | some e =>
        show List.foldl _ (Slice.items xs) rows = _
        rw [ih]
        simp [List.filterMap_cons, scannedCategory, hscan]

theorem orEmpty_collectCategories (rows : List (List SqlValue)) :
    orEmpty (collectCategories rows) = Slice.items (rows.filterMap scannedCategory) := by
  induction rows with
  | nil => simp [collectCategories, orEmpty, Slice.isNil]
  | cons cols rows ih =>
    unfold collectCategories at ih ⊢
    rw [List.foldl_cons]
    cases hscan : rowsScan categoryDest cols "" with
    | mk cat e =>
      cases e with
      | none =>
        show orEmpty (List.foldl _ (Slice.items [cat]) rows) = _
        rw [collectCategories_items]
        simp [orEmpty, Slice.isNil, List.filterMap_cons, scannedCategory, hscan]
      | some e =>
        show orEmpty (List.foldl _ Slice.nil rows) = _
        rw [ih]
        simp [List.filterMap_cons, scannedCategory, hscan]

/-- The category listing emits exactly the rows whose scan succeeded, in order. -/
theorem getAllCategories_drops_failed_rows (db : DB) (c : Context) (rows : Rows)
    (hq : db.Query getAllCategoriesSQL [] = Except.ok rows) :
    (getAllCategories db c).response.status = 200 ∧
      (getAllCategories db c).response.body =
        Json.arr ((rows.rows.filterMap scannedCategory).map Json.str) := by
  simp [getAllCategories, hq, orEmpty_collectCategories, Slice.toJson, StatusOK]

/-- C9 (the code departs from it): a search delivers one row, whose `category` is NULL, so
that its scan fails at that column; `searchBooks` answers 200 with an array that still
holds an entry for the row, filled up to the price and zero from the category on. -/
theorem searchBooks_keeps_row_whose_scan_failed :
    (rowsScan searchBooksDest neuromancerSearchRow Book.zero).2 =
      some (GoError.other (scanError "index 6, name \"category\""
        "converting NULL to string is unsupported")) ∧
    (searchBooks (DB.answering [neuromancerSearchRow] 0)
        (Context.bare [] [("q", "neuro")])).response.status = 200 ∧
    (searchBooks (DB.answering [neuromancerSearchRow] 0)
        (Context.bare [] [("q", "neuro")])).response.body =
      Json.arr [Book.toJson
        { Book.zero with
          ID := 2, Title := "Neuromancer", Author := "William Gibson",
          ISBN := "978-0441569595", Year := 1984, Price := 7.5 }] := by
  refine ⟨rfl, rfl, rfl⟩

/-- Any update that reaches a row is answered 500: the statement returns two columns and
`Scan` is given one destination. -/
theorem updateBook_two_columns_one_destination (db : DB) (c : Context) (b : Book) (rs : Rows)
    (c0 c1 : SqlValue) (rest : List (List SqlValue)) (hb : c.bindJSON = Except.ok b)
    (hq : db.Query updateBookSQL
      [SqlArg.text b.Title, SqlArg.text b.Author, SqlArg.text b.ISBN, SqlArg.int b.Year,
       SqlArg.float b.Price, SqlArg.text (c.Param "id")] = Except.ok rs)
    (hrows : rs.rows = [c0, c1] :: rest) :
    (updateBook db c).response.status = 500 ∧
      (updateBook db c).response.body = Json.obj [("error", Json.str (arityMessage 2 1))] := by
  simp [updateBook, hb, DB.QueryRow, hq, Row.Scan, hrows, rowsScan, updateBookDest,
    StatusInternalServerError, errorBody, GoError.Error]

/-- C2 (the code departs from it): an update of the existing book 2 with a body that
parses; the statement returns the row `(2, updated_at)`, and `updateBook` answers 500 with
the message of the arity error of `Scan`, not 200. -/
theorem updateBook_existing_row_answers_500 :
    (updateBook (DB.answering [neuromancerUpdateRow] 0)
        ⟨[("id", "2")], [], Except.ok bookA⟩).response.status = 500 ∧
    (updateBook (DB.answering [neuromancerUpdateRow] 0)
        ⟨[("id", "2")], [], Except.ok bookA⟩).response.body =
      Json.obj [("error", Json.str "sql: expected 2 destination arguments in Scan, not 1")] := by
  have hmsg : arityMessage 2 1 = "sql: expected 2 destination arguments in Scan, not 1" := by
    decide
  have h := updateBook_two_columns_one_destination (DB.answering [neuromancerUpdateRow] 0)
    ⟨[("id", "2")], [], Except.ok bookA⟩ bookA ⟨[neuromancerUpdateRow], none, none⟩ _ _ []
    rfl rfl rfl
  rw [hmsg] at h
  exact h

end Week11

/-! ### Rounding to `float64` -/

/-- Decimals denoting the same number convert to the same `float64`. -/
theorem float64Of_congr {x y : Decimal} (h : x.toRat = y.toRat) :
    float64Of x = float64Of y := by
  unfold float64Of
  rw [h]

/-! ### Conversions of the example decimals -/

namespace Week11

end Week11

namespace Week11

end Week11
